import Mathlib

/-!
Verification of the PTZ command and coordinate subsystem of the `audience`
PTZ camera controller.  JavaScript numbers are embedded as rationals (ℚ),
millisecond timestamps (integers produced by `Date.now()`) as integers (ℤ).
Backend invocations are modelled as emitted wire commands together with an
externally supplied transport outcome; the React store is modelled as an
explicit state record.
-/

namespace Audience

/-- Normalized PTZ position (`shared/types.ts`): pan/tilt in [-1,1], zoom in [0,1]
by convention; the structure itself imposes no bounds, exactly as the source. -/
structure PtzPosition where
  pan : ℚ
  tilt : ℚ
  zoom : ℚ
deriving Repr, DecidableEq

/-- A preset (`shared/types.ts`): a named, saved normalized position plus color. -/
structure Preset where
  id : String
  name : String
  pan : ℚ
  tilt : ℚ
  zoom : ℚ
  color : String
deriving Repr, DecidableEq

/-- Result of `calculateClickVector` (`src/utils/ptz-math.ts`). -/
structure ClickVector where
  panDelta : ℚ
  tiltDelta : ℚ
deriving Repr, DecidableEq

/-- `calculateClickVector` from `src/utils/ptz-math.ts`: normalize the click to
[-1,1] about the canvas center (Y inverted), then scale by
`sensitivity * zoomFactor` where `zoomFactor = 1/(1 + currentZoom*4)` for
positive zoom and `1` otherwise. -/
def calculateClickVector (clickX clickY canvasWidth canvasHeight sensitivity currentZoom : ℚ) :
    ClickVector :=
  let centerX := canvasWidth / 2
  let centerY := canvasHeight / 2
  let deltaX := (clickX - centerX) / centerX
  let deltaY := (centerY - clickY) / centerY
  let zoomFactor := if currentZoom > 0 then 1 / (1 + currentZoom * 4) else 1
  { panDelta := deltaX * sensitivity * zoomFactor
    tiltDelta := deltaY * sensitivity * zoomFactor }

/-- `clampPtz` from `src/utils/ptz-math.ts`: `Math.max(min, Math.min(max, value))`. -/
def clampPtz (value min max : ℚ) : ℚ :=
  Max.max min (Min.min max value)

/-- Overlay rectangle (`src/utils/overlay-geometry.ts`). -/
structure OverlayRect where
  x : ℚ
  y : ℚ
  width : ℚ
  height : ℚ
  visible : Bool
deriving Repr, DecidableEq

/-- `calculateOverlayRect` from `src/utils/overlay-geometry.ts`, transcribed
line by line (0.9 is the rational 9/10). -/
def calculateOverlayRect (preset : Preset)
    (currentPan currentTilt currentZoom cameraFovDegrees canvasWidth canvasHeight : ℚ) :
    OverlayRect :=
  let currentFov := cameraFovDegrees * (1 - currentZoom * (9/10))
  let presetFov := cameraFovDegrees * (1 - preset.zoom * (9/10))
  let aspectRatio := canvasWidth / canvasHeight
  let panOffset := preset.pan - currentPan
  let tiltOffset := preset.tilt - currentTilt
  let normalizedX := panOffset / (currentFov / cameraFovDegrees)
  let normalizedY := -tiltOffset / (currentFov / cameraFovDegrees)
  let relativeWidth := presetFov / currentFov
  let relativeHeight := relativeWidth / aspectRatio
  let centerX := canvasWidth / 2
  let centerY := canvasHeight / 2
  let rectWidth := relativeWidth * canvasWidth
  let rectHeight := relativeHeight * canvasHeight
  let rectX := centerX + normalizedX * centerX - rectWidth / 2
  let rectY := centerY + normalizedY * centerY - rectHeight / 2
  let visible :=
    decide (rectX + rectWidth > 0 ∧ rectX < canvasWidth ∧
            rectY + rectHeight > 0 ∧ rectY < canvasHeight)
  { x := rectX, y := rectY, width := rectWidth, height := rectHeight, visible := visible }

/-! ## Dispatcher (`src/hooks/usePtzControl.ts`)

The hook owns two pieces of mutable state: the last-accepted-command
timestamp (`lastCommandTime`, a `useRef` starting at 0) and the store's
`currentPosition`.  Each operation `invoke`s a Tauri backend command; we
model the invocation as an emitted `WireCommand` and take the transport
outcome (the promise resolving or rejecting) as an explicit argument.
An operation returns the new state, the list of wire commands actually
sent, and the error it propagates to its caller (`none` when the error
is caught and only logged). -/

/-- Wire commands sent to the backend via `invoke`. -/
inductive WireCommand where
  | moveRelativeCmd (panDelta tiltDelta : ℚ)
  | moveAbsoluteCmd (pan tilt zoom : ℚ)
  | zoomCmd (zoom : ℚ)
  | continuousMoveCmd (panSpeed tiltSpeed : ℚ)
  | stopCmd
  | recallPresetCmd (presetId : String)
  | getPositionCmd
  | homeCmd
deriving Repr, DecidableEq

/-- Outcome of one backend `invoke`: the promise resolves or rejects. -/
inductive TransportResult where
  | ok
  | err (msg : String)
deriving Repr, DecidableEq

/-- Dispatcher-owned mutable state: `lastCommandTime` ref plus the store's
`currentPosition`. -/
structure DispatcherState where
  lastCommandTime : ℤ
  currentPosition : PtzPosition
deriving Repr, DecidableEq

/-- `MIN_COMMAND_INTERVAL_MS` from `src/hooks/usePtzControl.ts`. -/
def MIN_COMMAND_INTERVAL_MS : ℤ := 100

/-- `throttle` from `src/hooks/usePtzControl.ts`: returns whether the command
is accepted, together with the new value of the `lastCommandTime` ref
(unchanged on a drop, set to `now` on acceptance). -/
def throttle (lastCommandTime now : ℤ) : Bool × ℤ :=
  if now - lastCommandTime < MIN_COMMAND_INTERVAL_MS then
    (false, lastCommandTime)
  else
    (true, now)

/-- The store's `setCurrentPosition` (`src/store/app-store.ts`): replaces the
position verbatim, with no clamping and no NaN guard. -/
def setCurrentPosition (s : DispatcherState) (pos : PtzPosition) : DispatcherState :=
  { s with currentPosition := pos }

/-- The optimistic update `moveRelative` performs on success:
pan/tilt get the delta added and are clamped via
`Math.max(-1, Math.min(1, _))`; zoom is carried over. -/
def applyRelative (pos : PtzPosition) (panDelta tiltDelta : ℚ) : PtzPosition :=
  { pan := Max.max (-1) (Min.min 1 (pos.pan + panDelta))
    tilt := Max.max (-1) (Min.min 1 (pos.tilt + tiltDelta))
    zoom := pos.zoom }

/-- `moveRelative` from `src/hooks/usePtzControl.ts`: throttled; on acceptance
sends `ptz_move_relative`; on transport success applies the clamped delta
optimistically; a transport error is caught and logged (nothing propagates,
position untouched). -/
def moveRelative (s : DispatcherState) (now : ℤ) (panDelta tiltDelta : ℚ)
    (tr : TransportResult) : DispatcherState × List WireCommand × Option String :=
  let t := throttle s.lastCommandTime now
  if t.1 then
    match tr with
    | .ok =>
        (⟨t.2, applyRelative s.currentPosition panDelta tiltDelta⟩,
         [WireCommand.moveRelativeCmd panDelta tiltDelta], none)
    | .err _ =>
        (⟨t.2, s.currentPosition⟩,
         [WireCommand.moveRelativeCmd panDelta tiltDelta], none)
  else
    (s, [], none)

/-- `moveAbsolute` from `src/hooks/usePtzControl.ts`: throttled; on success
stores `{pan, tilt, zoom}` verbatim (no clamping); errors are caught and
logged. -/
def moveAbsolute (s : DispatcherState) (now : ℤ) (pan tilt zoom : ℚ)
    (tr : TransportResult) : DispatcherState × List WireCommand × Option String :=
  let t := throttle s.lastCommandTime now
  if t.1 then
    match tr with
    | .ok =>
        (⟨t.2, ⟨pan, tilt, zoom⟩⟩, [WireCommand.moveAbsoluteCmd pan tilt zoom], none)
    | .err _ =>
        (⟨t.2, s.currentPosition⟩, [WireCommand.moveAbsoluteCmd pan tilt zoom], none)
  else
    (s, [], none)

/-- `zoom` from `src/hooks/usePtzControl.ts`: throttled; on success stores the
new zoom level over the current position; errors are caught and logged. -/
def zoom (s : DispatcherState) (now : ℤ) (zoomLevel : ℚ)
    (tr : TransportResult) : DispatcherState × List WireCommand × Option String :=
  let t := throttle s.lastCommandTime now
  if t.1 then
    match tr with
    | .ok =>
        (⟨t.2, { s.currentPosition with zoom := zoomLevel }⟩,
         [WireCommand.zoomCmd zoomLevel], none)
    | .err _ =>
        (⟨t.2, s.currentPosition⟩, [WireCommand.zoomCmd zoomLevel], none)
  else
    (s, [], none)

/-- `continuousMove` from `src/hooks/usePtzControl.ts`: throttled; never
touches the stored position; errors are caught and logged. -/
def continuousMove (s : DispatcherState) (now : ℤ) (panSpeed tiltSpeed : ℚ)
    (tr : TransportResult) : DispatcherState × List WireCommand × Option String :=
  let t := throttle s.lastCommandTime now
  if t.1 then
    (⟨t.2, s.currentPosition⟩, [WireCommand.continuousMoveCmd panSpeed tiltSpeed], none)
  else
    (s, [], none)

/-- `recallPreset` from `src/hooks/usePtzControl.ts`: NOT throttled; always
sends `ptz_recall_preset`; on its success queries `ptz_get_position` and, when
the query succeeds, overwrites the stored position wholesale with the reply.
Both failure paths are caught and logged (nothing propagates). -/
def recallPreset (s : DispatcherState) (presetId : String)
    (recallResult : TransportResult) (posResult : Except String PtzPosition) :
    DispatcherState × List WireCommand × Option String :=
  match recallResult with
  | .err _ => (s, [WireCommand.recallPresetCmd presetId], none)
  | .ok =>
      match posResult with
      | .error _ =>
          (s, [WireCommand.recallPresetCmd presetId, WireCommand.getPositionCmd], none)
      | .ok pos =>
          (setCurrentPosition s pos,
           [WireCommand.recallPresetCmd presetId, WireCommand.getPositionCmd], none)

/-- `stop` from `src/hooks/usePtzControl.ts`: NOT throttled; always sends
`ptz_stop`; errors are caught and logged. -/
def stop (s : DispatcherState) (tr : TransportResult) :
    DispatcherState × List WireCommand × Option String :=
  match tr with
  | .ok => (s, [WireCommand.stopCmd], none)
  | .err _ => (s, [WireCommand.stopCmd], none)

/-- `testConnection` from `src/hooks/useEndpoints.ts`: returns the `invoke`
promise directly, with no catch — transport errors propagate to the caller. -/
def testConnection (invokeResult : Except String String) : Except String String :=
  invokeResult

/-! ## Endpoint and preset stores
(`src/hooks/useEndpoints.ts`, `src/hooks/usePresets.ts`) -/

/-- A camera endpoint (`shared/types.ts`); the protocol/config payload is kept
abstract as a string tag since deletion logic only touches `id`. -/
structure CameraEndpoint where
  id : String
  name : String
  protocol : String
deriving Repr, DecidableEq

/-- Endpoint slice of the app store. -/
structure EndpointsState where
  endpoints : List CameraEndpoint
  activeEndpointId : Option String
deriving Repr, DecidableEq

/-- `deleteEndpoint` from `src/hooks/useEndpoints.ts`: on backend success,
filter the endpoint out of the list and clear `activeEndpointId` when it was
the deleted id; on backend failure the state is untouched and the error is
rethrown to the caller. -/
def deleteEndpoint (s : EndpointsState) (endpointId : String)
    (invokeResult : TransportResult) : EndpointsState × Option String :=
  match invokeResult with
  | .err m => (s, some m)
  | .ok =>
      let endpoints := s.endpoints.filter (fun e => e.id != endpointId)
      let active :=
        if s.activeEndpointId = some endpointId then none else s.activeEndpointId
      (⟨endpoints, active⟩, none)

/-- Preset slice of the app store. -/
structure PresetsState where
  presets : List Preset
  activePresetId : Option String
deriving Repr, DecidableEq

/-- `deletePreset` from `src/hooks/usePresets.ts`: same shape as
`deleteEndpoint` — filter on success, clear `activePresetId` when it pointed
at the deleted preset, rethrow on failure. -/
def deletePreset (s : PresetsState) (presetId : String)
    (invokeResult : TransportResult) : PresetsState × Option String :=
  match invokeResult with
  | .err m => (s, some m)
  | .ok =>
      let presets := s.presets.filter (fun p => p.id != presetId)
      let active :=
        if s.activePresetId = some presetId then none else s.activePresetId
      (⟨presets, active⟩, none)

/-! ## VISCA absolute-position codec

The Rust protocol backend is not part of the frontend sources; the codec
below is reconstructed from the specification. -/

/-- Modelled from the spec: the VISCA codec (backend, absent from the
frontend sources) maps a normalized pan/tilt value in [-1,1] to a signed
native field by round-to-nearest against the protocol extremum 8192
(a 14-bit signed field, so one unit of encoding is 1/16384 of the span). -/
def normToVisca (v : ℚ) : ℤ :=
  round (v * 8192)

/-- Modelled from the spec: inverse linear map from the signed native field
back to the normalized range. -/
def viscaToNorm (n : ℤ) : ℚ :=
  (n : ℚ) / 8192

/-- Modelled from the spec: a signed 16-bit value is transmitted as four
nibbles (most significant first) inside the `0p0p0p0p` field of the reply. -/
def toNibbles (n : ℤ) : List ℕ :=
  let u := (n % 65536).toNat
  [u / 4096 % 16, u / 256 % 16, u / 16 % 16, u % 16]

/-- Modelled from the spec: reassemble four nibbles into a signed 16-bit
value; out-of-range nibbles make the field malformed (`none`). -/
def fromNibbles (nibbles : List ℕ) : Option ℤ :=
  match nibbles with
  | [a, b, c, d] =>
      if a < 16 ∧ b < 16 ∧ c < 16 ∧ d < 16 then
        let u := a * 4096 + b * 256 + c * 16 + d
        some (if u < 32768 then (u : ℤ) else (u : ℤ) - 65536)
      else none
  | _ => none

/-- Modelled from the spec: a `90 50 0p0p0p0p 0t0t0t0t FF`-shaped absolute
position inquiry reply for native pan/tilt fields. -/
def encodePositionReply (pan tilt : ℤ) : List ℕ :=
  [0x90, 0x50] ++ toNibbles pan ++ toNibbles tilt ++ [0xFF]

/-- Modelled from the spec: `decode_position_reply` — nibble-decode the two
signed fields of a well-shaped reply and map them back to normalized values;
malformed or short replies decode to `none`, not an error. -/
def decodePositionReply (bytes : List ℕ) : Option (ℚ × ℚ) :=
  match bytes with
  | [h1, h2, p1, p2, p3, p4, t1, t2, t3, t4, term] =>
      if h1 = 0x90 ∧ h2 = 0x50 ∧ term = 0xFF then
        match fromNibbles [p1, p2, p3, p4], fromNibbles [t1, t2, t3, t4] with
        | some p, some t => some (viscaToNorm p, viscaToNorm t)
        | _, _ => none
      else none
  | _ => none

/-! ## Theorems -/

/-- C8: `clampPtz(value, min, max)` is the identity on every value already in
[min, max], returns the nearer bound for every value outside the range, and is
idempotent: `clampPtz (clampPtz value min max) min max = clampPtz value min max`. -/
theorem clampPtz_spec (value min max : ℚ) (h : min ≤ max) :
    (min ≤ value → value ≤ max → clampPtz value min max = value)
    ∧ (value < min → clampPtz value min max = min)
    ∧ (max < value → clampPtz value min max = max)
    ∧ clampPtz (clampPtz value min max) min max = clampPtz value min max := by
  have ident : ∀ w : ℚ, min ≤ w → w ≤ max → clampPtz w min max = w := by
    intro w h1 h2
    unfold clampPtz
    rw [min_eq_right h2, max_eq_right h1]
  refine ⟨ident value, ?_, ?_, ?_⟩
  · intro hv
    unfold clampPtz
    rw [min_eq_right (hv.le.trans h), max_eq_left hv.le]
  · intro hv
    unfold clampPtz
    rw [min_eq_left hv.le, max_eq_right h]
  · exact ident _ (le_max_left _ _) (max_le h (min_le_left _ _))

/-- Witness for C8 at value = 5, min = 0, max = 1. -/
theorem clampPtz_spec_witness :
    (0 : ℚ) ≤ 1 ∧ clampPtz (clampPtz 5 0 1) 0 1 = clampPtz 5 0 1 :=
  ⟨by norm_num, (clampPtz_spec 5 0 1 (by norm_num)).2.2.2⟩

/-- C5: `calculateClickVector` normalizes the click to [-1,1] about the
viewport center with Y inverted and multiplies by
`sensitivity * (1 / (1 + currentZoom * 4))` whenever the zoom is nonnegative;
the viewport-center click yields zero deltas, the top-right corner of an
800×600 viewport with sensitivity 1 yields (1,1) at zoom 0 and (0.2, 0.2)
at zoom 1. -/
theorem calculateClickVector_spec (clickX clickY w h sensitivity z : ℚ)
    (hz : 0 ≤ z) :
    calculateClickVector clickX clickY w h sensitivity z
      = { panDelta := (clickX - w / 2) / (w / 2) * sensitivity * (1 / (1 + z * 4))
          tiltDelta := (h / 2 - clickY) / (h / 2) * sensitivity * (1 / (1 + z * 4)) }
    ∧ calculateClickVector (w / 2) (h / 2) w h sensitivity z = ⟨0, 0⟩
    ∧ calculateClickVector 800 0 800 600 1 0 = ⟨1, 1⟩
    ∧ calculateClickVector 800 0 800 600 1 1 = ⟨1 / 5, 1 / 5⟩ := by
  have formula : ∀ x y : ℚ,
      calculateClickVector x y w h sensitivity z
        = { panDelta := (x - w / 2) / (w / 2) * sensitivity * (1 / (1 + z * 4))
            tiltDelta := (h / 2 - y) / (h / 2) * sensitivity * (1 / (1 + z * 4)) } := by
    intro x y
    simp only [calculateClickVector, ClickVector.mk.injEq]
    rcases lt_or_eq_of_le hz with hz' | hz'
    · rw [if_pos hz']
      exact ⟨rfl, rfl⟩
    · subst hz'
      norm_num
  refine ⟨formula clickX clickY, ?_, ?_, ?_⟩
  · rw [formula]
    simp only [ClickVector.mk.injEq]
    norm_num
  · simp only [calculateClickVector, ClickVector.mk.injEq]
    norm_num
  · simp only [calculateClickVector, ClickVector.mk.injEq]
    norm_num

/-- Witness for C5: the corner-click instances at zoom 0 and zoom 1. -/
theorem calculateClickVector_spec_witness :
    (0 : ℚ) ≤ 0
    ∧ calculateClickVector 800 0 800 600 1 0 = ⟨1, 1⟩
    ∧ calculateClickVector 800 0 800 600 1 1 = ⟨1 / 5, 1 / 5⟩ :=
  ⟨by norm_num,
   (calculateClickVector_spec 400 300 800 600 1 0 (by norm_num)).2.2.1,
   (calculateClickVector_spec 400 300 800 600 1 0 (by norm_num)).2.2.2⟩

/-- C4 counterexample: for the preset at pan=0, tilt=0, zoom=0 viewed from an
identical position with viewport 800×600 and fov 60°, the code returns a
rectangle vertically centered at y = 75 — the claimed value {x:0, y:0, w:800,
h:450, visible:true} is not what `calculateOverlayRect` produces. -/
theorem calculateOverlayRect_identity_not_y0 :
    calculateOverlayRect ⟨"p1", "Preset 1", 0, 0, 0, "#3b82f6"⟩ 0 0 0 60 800 600
      ≠ ⟨0, 0, 800, 450, true⟩ := by
  simp only [calculateOverlayRect, ne_eq, OverlayRect.mk.injEq]
  norm_num

/-- C4 (amended): for the preset at pan=0, tilt=0, zoom=0 projected from the
identical current position with viewport 800×600 and fov 60°,
`calculateOverlayRect` returns the full-width rectangle of height 450
vertically centered at y = 75 — {x:0, y:75, w:800, h:450, visible:true}. -/
theorem calculateOverlayRect_identity_centered :
    calculateOverlayRect ⟨"p1", "Preset 1", 0, 0, 0, "#3b82f6"⟩ 0 0 0 60 800 600
      = ⟨0, 75, 800, 450, true⟩ := by
  simp only [calculateOverlayRect, OverlayRect.mk.injEq]
  norm_num

/-- C1: a velocity/position-changing operation (moveRelative, moveAbsolute,
zoom, continuousMove) issued strictly less than `MIN_COMMAND_INTERVAL_MS`
after the previously accepted command of that (throttled) kind is silently
dropped — nothing is sent and the state (stored position and last-command
timestamp) is unchanged — whereas two `moveRelative` calls issued 100 ms or
more apart are both accepted and both apply their clamped deltas. -/
theorem throttling_invariant (s : DispatcherState) (now t1 t2 : ℤ)
    (pd td pd2 td2 pan tilt zm zl ps ts : ℚ) (tr : TransportResult)
    (hdrop : now - s.lastCommandTime < MIN_COMMAND_INTERVAL_MS)
    (h1 : MIN_COMMAND_INTERVAL_MS ≤ t1 - s.lastCommandTime)
    (h2 : MIN_COMMAND_INTERVAL_MS ≤ t2 - t1) :
    moveRelative s now pd td tr = (s, [], none)
    ∧ moveAbsolute s now pan tilt zm tr = (s, [], none)
    ∧ zoom s now zl tr = (s, [], none)
    ∧ continuousMove s now ps ts tr = (s, [], none)
    ∧ moveRelative s t1 pd td .ok
        = (⟨t1, applyRelative s.currentPosition pd td⟩,
           [WireCommand.moveRelativeCmd pd td], none)
    ∧ moveRelative (moveRelative s t1 pd td .ok).1 t2 pd2 td2 .ok
        = (⟨t2, applyRelative (applyRelative s.currentPosition pd td) pd2 td2⟩,
           [WireCommand.moveRelativeCmd pd2 td2], none) := by
  have h1' : ¬ (t1 - s.lastCommandTime < MIN_COMMAND_INTERVAL_MS) := not_lt.mpr h1
  have h2' : ¬ (t2 - t1 < MIN_COMMAND_INTERVAL_MS) := not_lt.mpr h2
  refine ⟨?_, ?_, ?_, ?_, ?_, ?_⟩
  · cases tr <;> simp [moveRelative, throttle, hdrop]
  · cases tr <;> simp [moveAbsolute, throttle, hdrop]
  · cases tr <;> simp [zoom, throttle, hdrop]
  · simp [continuousMove, throttle, hdrop]
  · simp [moveRelative, throttle, h1']
  · simp [moveRelative, throttle, h1', h2']

/-- Witness for C1: from a fresh state, a call at t = 50 is dropped while
calls at t = 100 and t = 200 are both accepted and both apply. -/
theorem throttling_invariant_witness :
    ((50 : ℤ) - (DispatcherState.mk 0 ⟨0, 0, 0⟩).lastCommandTime
        < MIN_COMMAND_INTERVAL_MS)
    ∧ moveRelative ⟨0, ⟨0, 0, 0⟩⟩ 50 (1/10) 0 .ok = (⟨0, ⟨0, 0, 0⟩⟩, [], none)
    ∧ moveRelative (moveRelative ⟨0, ⟨0, 0, 0⟩⟩ 100 (1/10) 0 .ok).1 200 (1/10) 0 .ok
        = (⟨200, applyRelative (applyRelative ⟨0, 0, 0⟩ (1/10) 0) (1/10) 0⟩,
           [WireCommand.moveRelativeCmd (1/10) 0], none) :=
  ⟨by decide,
   (throttling_invariant ⟨0, ⟨0, 0, 0⟩⟩ 50 100 200 (1/10) 0 (1/10) 0 0 0 0 0 0 0 .ok
      (by decide) (by decide) (by decide)).1,
   (throttling_invariant ⟨0, ⟨0, 0, 0⟩⟩ 50 100 200 (1/10) 0 (1/10) 0 0 0 0 0 0 0 .ok
      (by decide) (by decide) (by decide)).2.2.2.2.2⟩

/-- C2: `stop` and `recallPreset` are never throttled — for every dispatcher
state (in particular every value of the last-command timestamp) and every
transport outcome, the corresponding wire command is always issued. -/
theorem stop_recall_never_throttled (s : DispatcherState) (tr : TransportResult)
    (presetId : String) (posResult : Except String PtzPosition) :
    WireCommand.stopCmd ∈ (stop s tr).2.1
    ∧ WireCommand.recallPresetCmd presetId ∈ (recallPreset s presetId tr posResult).2.1 := by
  cases tr <;> cases posResult <;> simp [stop, recallPreset, setCurrentPosition]

/-- C3: after an accepted `moveRelative` whose transport send succeeds, the
stored position is the old one with the deltas added and pan/tilt clamped to
[-1,1] and zoom unchanged; a subsequent successful position query performed by
`recallPreset` overwrites the stored position wholesale with the queried value. -/
theorem optimistic_update_overwrite (s : DispatcherState) (now : ℤ)
    (pd td : ℚ) (presetId : String) (pos : PtzPosition)
    (hacc : MIN_COMMAND_INTERVAL_MS ≤ now - s.lastCommandTime) :
    (moveRelative s now pd td .ok).1.currentPosition
      = { pan := Max.max (-1) (Min.min 1 (s.currentPosition.pan + pd))
          tilt := Max.max (-1) (Min.min 1 (s.currentPosition.tilt + td))
          zoom := s.currentPosition.zoom }
    ∧ (recallPreset s presetId .ok (.ok pos)).1.currentPosition = pos := by
  have hacc' : ¬ (now - s.lastCommandTime < MIN_COMMAND_INTERVAL_MS) := not_lt.mpr hacc
  constructor
  · simp [moveRelative, throttle, hacc', applyRelative]
  · simp [recallPreset, setCurrentPosition]

/-- Witness for C3: an accepted over-range move clamps pan to 1, and a recall
overwrite replaces the whole stored position. -/
theorem optimistic_update_overwrite_witness :
    MIN_COMMAND_INTERVAL_MS ≤ (100 : ℤ) - (DispatcherState.mk 0 ⟨0, 0, 0⟩).lastCommandTime
    ∧ (recallPreset ⟨0, ⟨0, 0, 0⟩⟩ "p1" .ok (.ok ⟨1/4, -(1/3), 1/2⟩)).1.currentPosition
        = ⟨1/4, -(1/3), 1/2⟩ :=
  ⟨by decide,
   (optimistic_update_overwrite ⟨0, ⟨0, 0, 0⟩⟩ 100 (3/2) 0 "p1" ⟨1/4, -(1/3), 1/2⟩
      (by decide)).2⟩

/-- C6 counterexample: an accepted `moveAbsolute` with pan = 5 stores pan = 5
verbatim — the stored position leaves [-1,1], so the mutation invariant claimed
for every operation does not hold. -/
theorem moveAbsolute_escapes_range :
    (moveAbsolute ⟨0, ⟨0, 0, 0⟩⟩ 200 5 0 0 .ok).1.currentPosition.pan = 5
    ∧ ¬ ((5 : ℚ) ≤ 1) := by
  constructor
  · norm_num [moveAbsolute, throttle, MIN_COMMAND_INTERVAL_MS]
  · norm_num

/-- C6 (amended): `moveRelative` does clamp — after any accepted successful
call its stored pan and tilt lie in [-1,1] whatever the inputs, with zoom
carried over — but `moveAbsolute` and `setCurrentPosition` store their
arguments verbatim with no clamping and no NaN guard, so after those
mutations the range invariant holds exactly when the inputs were already
in range. -/
theorem position_mutation_clamping (s : DispatcherState) (now : ℤ)
    (pd td pan tilt zm : ℚ) (pos : PtzPosition)
    (hacc : MIN_COMMAND_INTERVAL_MS ≤ now - s.lastCommandTime) :
    (-1 ≤ (moveRelative s now pd td .ok).1.currentPosition.pan
      ∧ (moveRelative s now pd td .ok).1.currentPosition.pan ≤ 1
      ∧ -1 ≤ (moveRelative s now pd td .ok).1.currentPosition.tilt
      ∧ (moveRelative s now pd td .ok).1.currentPosition.tilt ≤ 1
      ∧ (moveRelative s now pd td .ok).1.currentPosition.zoom
          = s.currentPosition.zoom)
    ∧ (moveAbsolute s now pan tilt zm .ok).1.currentPosition = ⟨pan, tilt, zm⟩
    ∧ (setCurrentPosition s pos).currentPosition = pos := by
  have hacc' : ¬ (now - s.lastCommandTime < MIN_COMMAND_INTERVAL_MS) := not_lt.mpr hacc
  refine ⟨?_, ?_, rfl⟩
  · simp only [moveRelative, throttle, if_neg hacc', if_pos, applyRelative]
    exact ⟨le_max_left _ _, max_le (by norm_num) (min_le_left _ _),
           le_max_left _ _, max_le (by norm_num) (min_le_left _ _), True.intro⟩
  · simp [moveAbsolute, throttle, hacc']

/-- Witness for C6 (amended): moving by +3/2 from the origin clamps pan to at
most 1, and `setCurrentPosition` stores its argument verbatim. -/
theorem position_mutation_clamping_witness :
    MIN_COMMAND_INTERVAL_MS ≤ (100 : ℤ) - (DispatcherState.mk 0 ⟨0, 0, 0⟩).lastCommandTime
    ∧ (moveRelative ⟨0, ⟨0, 0, 0⟩⟩ 100 (3/2) 0 .ok).1.currentPosition.pan ≤ 1
    ∧ (setCurrentPosition ⟨0, ⟨0, 0, 0⟩⟩ ⟨2, 2, 2⟩).currentPosition = ⟨2, 2, 2⟩ :=
  ⟨by decide,
   (position_mutation_clamping ⟨0, ⟨0, 0, 0⟩⟩ 100 (3/2) 0 0 0 0 ⟨2, 2, 2⟩
      (by decide)).1.2.1,
   (position_mutation_clamping ⟨0, ⟨0, 0, 0⟩⟩ 100 (3/2) 0 0 0 0 ⟨2, 2, 2⟩
      (by decide)).2.2⟩

/-- C7 counterexample: `recallPreset` catches a transport error and only logs
it — at a concrete failing input the caller receives `none`, not the error, so
the claim that `recall_preset` propagates transport errors to its caller is
false on the code. -/
theorem recallPreset_swallows_error :
    recallPreset ⟨0, ⟨0, 0, 0⟩⟩ "p1" (.err "Unreachable") (.error "Unreachable")
      = (⟨0, ⟨0, 0, 0⟩⟩, [WireCommand.recallPresetCmd "p1"], none) := rfl

/-- C7 (amended): `moveRelative`, `moveAbsolute` and `zoom` never propagate a
transport error (the stored position is left unchanged by the failed call) and
`testConnection` propagates transport errors to its caller, but `recallPreset`
also swallows its transport errors (caught and logged, position unchanged). -/
theorem error_propagation_policy (s : DispatcherState) (now : ℤ)
    (pd td pan tilt zm zl : ℚ) (presetId msg : String)
    (posResult : Except String PtzPosition) :
    (moveRelative s now pd td (.err msg)).2.2 = none
    ∧ (moveRelative s now pd td (.err msg)).1.currentPosition = s.currentPosition
    ∧ (moveAbsolute s now pan tilt zm (.err msg)).2.2 = none
    ∧ (moveAbsolute s now pan tilt zm (.err msg)).1.currentPosition = s.currentPosition
    ∧ (zoom s now zl (.err msg)).2.2 = none
    ∧ (zoom s now zl (.err msg)).1.currentPosition = s.currentPosition
    ∧ (recallPreset s presetId (.err msg) posResult).2.2 = none
    ∧ (recallPreset s presetId (.err msg) posResult).1.currentPosition
        = s.currentPosition
    ∧ testConnection (.error msg) = .error msg := by
  by_cases hthr : now - s.lastCommandTime < MIN_COMMAND_INTERVAL_MS <;>
    simp [moveRelative, moveAbsolute, zoom, recallPreset, testConnection, throttle, hthr]

/-- C10: after a successful `deleteEndpoint`, the endpoint with the deleted id
is absent from the list and the active endpoint id is cleared to `none`
exactly when it pointed at the deleted endpoint; likewise for
`deletePreset`/`activePresetId`. -/
theorem delete_clears_active (es : EndpointsState) (ps : PresetsState)
    (endpointId presetId : String) :
    (∀ e ∈ (deleteEndpoint es endpointId .ok).1.endpoints, e.id ≠ endpointId)
    ∧ ((deleteEndpoint es endpointId .ok).1.activeEndpointId
        = if es.activeEndpointId = some endpointId then none
          else es.activeEndpointId)
    ∧ (∀ p ∈ (deletePreset ps presetId .ok).1.presets, p.id ≠ presetId)
    ∧ ((deletePreset ps presetId .ok).1.activePresetId
        = if ps.activePresetId = some presetId then none
          else ps.activePresetId) := by
  refine ⟨?_, rfl, ?_, rfl⟩
  · intro e he
    have := (List.mem_filter.mp he).2
    simpa using this
  · intro p hp
    have := (List.mem_filter.mp hp).2
    simpa using this

/-- Witness for C10: deleting the active endpoint of a two-endpoint store
clears the active id, and deleting the active preset clears it too. -/
theorem delete_clears_active_witness :
    (deleteEndpoint ⟨[⟨"e1", "Cam 1", "Visca"⟩, ⟨"e2", "Cam 2", "Ndi"⟩], some "e1"⟩
        "e1" .ok).1.activeEndpointId = none
    ∧ (deletePreset ⟨[⟨"p1", "Wide", 0, 0, 0, "#fff"⟩], some "p1"⟩
        "p1" .ok).1.activePresetId = none := by
  have h := delete_clears_active
    ⟨[⟨"e1", "Cam 1", "Visca"⟩, ⟨"e2", "Cam 2", "Ndi"⟩], some "e1"⟩
    ⟨[⟨"p1", "Wide", 0, 0, 0, "#fff"⟩], some "p1"⟩ "e1" "p1"
  refine ⟨?_, ?_⟩
  · rw [h.2.1]
    rfl
  · rw [h.2.2.2]
    rfl

/-- C9: encoding a VISCA absolute-position reply for pan = 0.37,
tilt = -0.52 and decoding it recovers both values within 1/16384, and in
general the normalized-to-native conversion is total (defined on every
rational) and its round trip lands within one unit of the 14-bit encoding,
1/16384, of the input. -/
theorem visca_roundtrip :
    decodePositionReply
        (encodePositionReply (normToVisca (37/100)) (normToVisca (-(52/100))))
      = some (3031/8192, -(4260/8192))
    ∧ |(3031/8192 : ℚ) - 37/100| ≤ 1/16384
    ∧ |(-(4260/8192) : ℚ) - (-(52/100))| ≤ 1/16384
    ∧ (∀ v : ℚ, |viscaToNorm (normToVisca v) - v| ≤ 1/16384) := by
  have hp : normToVisca (37/100) = 3031 := by norm_num [normToVisca, round_eq]
  have ht : normToVisca (-(52/100)) = -4260 := by norm_num [normToVisca, round_eq]
  refine ⟨?_, ?_, ?_, ?_⟩
  · rw [hp, ht]
    have e1 : toNibbles 3031 = [0, 11, 13, 7] := by decide
    have e2 : toNibbles (-4260) = [14, 15, 5, 12] := by decide
    have d1 : fromNibbles [0, 11, 13, 7] = some 3031 := by decide
    have d2 : fromNibbles [14, 15, 5, 12] = some (-4260) := by decide
    simp only [encodePositionReply, e1, e2, List.cons_append, List.nil_append]
    simp only [decodePositionReply]
    norm_num [d1, d2, viscaToNorm]
  · rw [abs_le]
    norm_num
  · rw [abs_le]
    norm_num
  · intro v
    have h : |v * 8192 - (round (v * 8192) : ℚ)| ≤ 1/2 := abs_sub_round (v * 8192)
    have key : viscaToNorm (normToVisca v) - v
        = ((round (v * 8192) : ℚ) - v * 8192) / 8192 := by
      unfold viscaToNorm normToVisca
      ring
    rw [key, abs_div, abs_of_pos (by norm_num : (0:ℚ) < 8192),
      div_le_iff₀ (by norm_num : (0:ℚ) < 8192), abs_sub_comm]
    calc |v * 8192 - (round (v * 8192) : ℚ)| ≤ 1/2 := h
      _ = 1/16384 * 8192 := by norm_num

end Audience
